import Mathlib

/-!
Verification development for the song-recommendation repository.

The definitions below are a shallow embedding of `src/data_models.py` and
`src/recommendation_engine.py`.  Python floats are modelled as real numbers,
Python ints as integers, fallible code as `Except String`.  The Spotify
catalog collaborator is modelled as total functions
`String → Option AudioFeatures` (audio-feature lookup) and
`String → Option Track` (metadata lookup); `none` models a fetch failure.
The engine's in-memory feature cache only memoizes
`extract_feature_vector ∘ fetch` for a fixed catalog, so it is modelled
transparently (a cache hit returns exactly what a fresh fetch would).
-/

namespace SongRec

/-- Model of the `Track` dataclass of `src/data_models.py` (lines 8-22). -/
structure Track where
  track_uri : String
  track_name : String
  artist_name : String
  artist_uri : String
  album_uri : String
  album_name : String
  track_id : ℤ
deriving Repr, DecidableEq

/-- Model of the `AudioFeatures` dataclass of `src/data_models.py` (lines 90-105):
13 numeric fields, floats as reals and ints as integers. -/
structure AudioFeatures where
  danceability : ℝ
  energy : ℝ
  key : ℤ
  loudness : ℝ
  mode : ℤ
  speechiness : ℝ
  acousticness : ℝ
  instrumentalness : ℝ
  liveness : ℝ
  valence : ℝ
  tempo : ℝ
  duration_ms : ℤ
  time_signature : ℤ

/-- Model of `AudioFeatures.__post_init__` (`src/data_models.py` lines 107-113) as a
validating constructor: it iterates over the seven listed fields
(danceability, energy, speechiness, acousticness, instrumentalness, liveness,
valence) and raises `ValueError` on the first one outside `[0, 1]`.  The six
remaining fields (key, loudness, mode, tempo, duration_ms, time_signature)
are NOT checked by the source. -/
noncomputable def mkAudioFeatures (danceability energy : ℝ) (key : ℤ) (loudness : ℝ)
    (mode : ℤ) (speechiness acousticness instrumentalness liveness valence tempo : ℝ)
    (duration_ms time_signature : ℤ) : Except String AudioFeatures :=
  if ¬(0 ≤ danceability ∧ danceability ≤ 1) then
    Except.error "danceability must be between 0.0 and 1.0"
  else if ¬(0 ≤ energy ∧ energy ≤ 1) then
    Except.error "energy must be between 0.0 and 1.0"
  else if ¬(0 ≤ speechiness ∧ speechiness ≤ 1) then
    Except.error "speechiness must be between 0.0 and 1.0"
  else if ¬(0 ≤ acousticness ∧ acousticness ≤ 1) then
    Except.error "acousticness must be between 0.0 and 1.0"
  else if ¬(0 ≤ instrumentalness ∧ instrumentalness ≤ 1) then
    Except.error "instrumentalness must be between 0.0 and 1.0"
  else if ¬(0 ≤ liveness ∧ liveness ≤ 1) then
    Except.error "liveness must be between 0.0 and 1.0"
  else if ¬(0 ≤ valence ∧ valence ≤ 1) then
    Except.error "valence must be between 0.0 and 1.0"
  else
    Except.ok
      { danceability := danceability, energy := energy, key := key, loudness := loudness,
        mode := mode, speechiness := speechiness, acousticness := acousticness,
        instrumentalness := instrumentalness, liveness := liveness, valence := valence,
        tempo := tempo, duration_ms := duration_ms, time_signature := time_signature }

/-- Model of the `User` dataclass of `src/data_models.py` (lines 44-72), restricted to
the fields the recommendation engine reads (the five preference lists and the
username). -/
structure User where
  username : String
  loved_it : List String
  like_it : List String
  okay : List String
  hate_it : List String
  recently_searched : List String
deriving Repr, DecidableEq

/-- Model of the `RecommendationResult` dataclass of `src/data_models.py` (lines 75-87). -/
structure RecommendationResult where
  recommended_tracks : List Track
  confidence_scores : List ℝ
  algorithm_used : String
  processing_time : ℝ

/-- Model of `RecommendationResult.__post_init__` (`src/data_models.py` lines 84-87):
construction raises `ValueError` unless the two parallel lists have equal
length. -/
def mkRecommendationResult (recommended_tracks : List Track) (confidence_scores : List ℝ)
    (algorithm_used : String) (processing_time : ℝ) : Except String RecommendationResult :=
  if recommended_tracks.length = confidence_scores.length then
    Except.ok
      { recommended_tracks := recommended_tracks, confidence_scores := confidence_scores,
        algorithm_used := algorithm_used, processing_time := processing_time }
  else
    Except.error "Tracks and confidence scores must have same length"

/-- Model of `RecommendationEngine._extract_feature_vector`
(`src/recommendation_engine.py` lines 119-143): the 12-component normalized
feature vector, in source order. -/
noncomputable def extract_feature_vector (f : AudioFeatures) : List ℝ :=
  [f.danceability,
   f.energy,
   (f.key : ℝ) / 11,
   (f.loudness + 60) / 60,
   (f.mode : ℝ),
   f.speechiness,
   f.acousticness,
   f.instrumentalness,
   f.liveness,
   f.valence,
   f.tempo / 200,
   (f.time_signature : ℝ) / 4]

/-- Per-track resolution of candidate tracks, shared by `find_similar_tracks`
(lines 247-266) and `cluster_based_recommendations` (lines 316-334): each
candidate's features are taken from the cache or fetched, failures are
dropped, and successes keep the candidate URI next to its extracted vector
(the code's parallel `valid_candidates` / `candidate_vectors` lists). -/
noncomputable def resolveCandidates (env : String → Option AudioFeatures)
    (candidate_tracks : List String) : List (String × List ℝ) :=
  candidate_tracks.filterMap fun t => (env t).map fun f => (t, extract_feature_vector f)

/-- Dot product of two float vectors, truncating at the shorter length. -/
noncomputable def listDot (x y : List ℝ) : ℝ := (List.zipWith (· * ·) x y).sum

/-- Cosine similarity as computed by
`sklearn.metrics.pairwise.cosine_similarity` at line 276: the dot product
divided by the product of the Euclidean norms.  sklearn replaces a zero norm
by 1, which gives value 0 for a zero vector; with Lean's `x / 0 = 0`
convention the unguarded formula takes the same value, since a zero vector
also has dot product 0. -/
noncomputable def cosSim (x y : List ℝ) : ℝ :=
  listDot x y / (Real.sqrt (listDot x x) * Real.sqrt (listDot y y))

/-- Euclidean distance between two float vectors, as computed by
`scipy.spatial.distance.cdist(·, ·, metric='euclidean')` at line 357. -/
noncomputable def euclid (x y : List ℝ) : ℝ :=
  Real.sqrt (List.zipWith (fun a b => (a - b) ^ 2) x y).sum

/-- Model of the per-track weight assignment of
`RecommendationEngine.get_user_preference_vector`
(`src/recommendation_engine.py` lines 199-208): an `if/elif/elif/else`
chain, so a track in several category lists receives the weight of the first
matching category (loved 1.0, liked 0.7, okay 0.4, else — i.e.
recently-searched — 0.3). -/
def preference_weight (u : User) (t : String) : ℚ :=
  if t ∈ u.loved_it then 1
  else if t ∈ u.like_it then 7 / 10
  else if t ∈ u.okay then 2 / 5
  else 3 / 10

/-- Model of `RecommendationEngine.get_user_preference_vector`
(`src/recommendation_engine.py` lines 165-221).  The source concatenates
`loved_it + like_it + okay + recently_searched`; if that list is empty, or
every per-track feature fetch fails (`get_multiple_track_features` drops
failures), it returns the 12-component zero vector.  Otherwise it reaches
line 214, `np.average(feature_matrix, axis=0, weights=weights.flatten())`,
where `weights` is a plain Python list: list objects have no `flatten`
attribute, so the call raises `AttributeError`, which the `except` block at
lines 219-221 wraps into `PlaylistGenerationError`.  The weighted average is
therefore never produced. -/
def get_user_preference_vector (env : String → Option AudioFeatures) (u : User) :
    Except String (List ℝ) :=
  let positive_tracks := u.loved_it ++ u.like_it ++ u.okay ++ u.recently_searched
  if positive_tracks.isEmpty then Except.ok (List.replicate 12 0)
  else
    let fetched := positive_tracks.filterMap env
    if fetched.isEmpty then Except.ok (List.replicate 12 0)
    else
      Except.error
        "Failed to generate preference vector: AttributeError: list object has no attribute flatten"

/-- Tag each list element with its position, starting at `i`. -/
def withIdx {α : Type} : List α → ℕ → List (α × ℕ)
  | [], _ => []
  | a :: as, i => (a, i) :: withIdx as (i + 1)

/-- Order on (value, original index) pairs realised by `np.argsort` with its
stable ascending sort (numpy uses insertion sort on the small arrays arising
here): ascending value, ties by ascending original index. -/
def lexLe (a b : ℝ × ℕ) : Prop :=
  a.1 < b.1 ∨ (a.1 = b.1 ∧ a.2 ≤ b.2)

noncomputable instance : DecidableRel lexLe := fun a b => by
  unfold lexLe; infer_instance

instance : IsTotal (ℝ × ℕ) lexLe where
  total a b := by
    rcases lt_trichotomy a.1 b.1 with h | h | h
    · exact Or.inl (Or.inl h)
    · rcases Nat.le_total a.2 b.2 with h2 | h2
      · exact Or.inl (Or.inr ⟨h, h2⟩)
      · exact Or.inr (Or.inr ⟨h.symm, h2⟩)
    · exact Or.inr (Or.inl h)

instance : IsTrans (ℝ × ℕ) lexLe where
  trans a b c hab hbc := by
    rcases hab with h1 | ⟨h1, h1n⟩
    · rcases hbc with h2 | ⟨h2, _⟩
      · exact Or.inl (h1.trans h2)
      · exact Or.inl (h2 ▸ h1)
    · rcases hbc with h2 | ⟨h2, h2n⟩
      · exact Or.inl (h1 ▸ h2)
      · exact Or.inr ⟨h1.trans h2, h1n.trans h2n⟩

/-- The threshold filter applied inside the loops at lines 282-284 and
366-369: keep exactly the entries whose score exceeds the threshold. -/
noncomputable def filterThr (thr : ℝ) : List (ℝ × ℕ) → List (ℝ × ℕ)
  | [] => []
  | p :: ps => if thr < p.1 then p :: filterThr thr ps else filterThr thr ps

/-- The shared ranking step of `find_similar_tracks` (lines 279-286) and
`cluster_based_recommendations` (lines 364-371):
`top = np.argsort(scores)[::-1][:n]` followed by the loop keeping
`(index, score)` entries with `score > thr`.  Elements are (score, original
index) pairs; the stable ascending argsort is the lexicographic insertion
sort, then the slice reverses it and truncates to `n`. -/
noncomputable def rankDesc (scores : List ℝ) (n : ℕ) (thr : ℝ) : List (ℝ × ℕ) :=
  filterThr thr (((List.insertionSort lexLe (withIdx scores 0)).reverse).take n)

theorem mem_withIdx {α : Type} {p : α × ℕ} {l : List α} :
    ∀ {i : ℕ}, p ∈ withIdx l i → p.1 ∈ l := by
  induction l with
  | nil => intro i h; cases h
  | cons a as ih =>
    intro i h
    cases h with
    | head => exact List.mem_cons_self a as
    | tail _ h => exact List.mem_cons_of_mem a (ih h)

theorem filterThr_sublist (thr : ℝ) :
    ∀ l : List (ℝ × ℕ), List.Sublist (filterThr thr l) l
  | [] => List.Sublist.refl []
  | p :: ps => by
    unfold filterThr
    by_cases h : thr < p.1
    · simpa [h] using (filterThr_sublist thr ps).cons₂ p
    · simpa [h] using (filterThr_sublist thr ps).cons p

theorem mem_filterThr {thr : ℝ} {q : ℝ × ℕ} {l : List (ℝ × ℕ)} :
    q ∈ filterThr thr l → thr < q.1 ∧ q ∈ l := by
  induction l with
  | nil => intro h; cases h
  | cons p ps ih =>
    intro h
    unfold filterThr at h
    by_cases hc : thr < p.1
    · rw [if_pos hc] at h
      cases h with
      | head => exact ⟨hc, List.mem_cons_self _ _⟩
      | tail _ h => exact ⟨(ih h).1, List.mem_cons_of_mem p (ih h).2⟩
    · rw [if_neg hc] at h
      exact ⟨(ih h).1, List.mem_cons_of_mem p (ih h).2⟩

/-- The ranking step returns at most `n` entries. -/
theorem rankDesc_length_le (scores : List ℝ) (n : ℕ) (thr : ℝ) :
    (rankDesc scores n thr).length ≤ n :=
  le_trans (filterThr_sublist thr _).length_le (List.length_take_le n _)

/-- Every entry kept by the ranking step exceeds the threshold, and its score
occurs among the input scores. -/
theorem rankDesc_mem {scores : List ℝ} {n : ℕ} {thr : ℝ} {q : ℝ × ℕ}
    (h : q ∈ rankDesc scores n thr) : thr < q.1 ∧ q.1 ∈ scores := by
  obtain ⟨hthr, hq⟩ := mem_filterThr h
  refine ⟨hthr, ?_⟩
  have hq2 : q ∈ (List.insertionSort lexLe (withIdx scores 0)).reverse :=
    List.take_subset n _ hq
  rw [List.mem_reverse] at hq2
  have hq3 : q ∈ withIdx scores 0 :=
    (List.perm_insertionSort lexLe (withIdx scores 0)).mem_iff.mp hq2
  exact mem_withIdx hq3

/-- The ranking step is sorted by strictly-descending-or-tied score, ties
carrying a larger-or-equal original index first: the reverse of the stable
ascending argsort. -/
theorem rankDesc_pairwise (scores : List ℝ) (n : ℕ) (thr : ℝ) :
    (rankDesc scores n thr).Pairwise (fun a b => lexLe b a) := by
  have hsorted : (List.insertionSort lexLe (withIdx scores 0)).Pairwise lexLe :=
    List.sorted_insertionSort lexLe (withIdx scores 0)
  have hrev : ((List.insertionSort lexLe (withIdx scores 0)).reverse).Pairwise
      (fun a b => lexLe b a) :=
    List.pairwise_reverse.mpr hsorted
  exact (hrev.sublist (List.take_sublist n _)).sublist (filterThr_sublist thr _)

theorem mem_withIdx_snd_ge {α : Type} {p : α × ℕ} :
    ∀ {l : List α} {i : ℕ}, p ∈ withIdx l i → i ≤ p.2 := by
  intro l
  induction l with
  | nil => intro i h; cases h
  | cons a as ih =>
    intro i h
    cases h with
    | head => exact le_rfl
    | tail _ h => exact le_trans (Nat.le_succ i) (ih h)

theorem withIdx_snd_nodup {α : Type} :
    ∀ (l : List α) (i : ℕ), ((withIdx l i).map Prod.snd).Nodup
  | [], _ => List.nodup_nil
  | a :: as, i => by
    rw [withIdx, List.map_cons, List.nodup_cons]
    refine ⟨?_, withIdx_snd_nodup as (i + 1)⟩
    intro hmem
    obtain ⟨q, hq, hsnd⟩ := List.mem_map.mp hmem
    have := mem_withIdx_snd_ge hq
    omega

/-- The original candidate indices of the ranking-step output are pairwise
distinct, so the tie ordering in `rankDesc_pairwise` is strict. -/
theorem rankDesc_idx_nodup (scores : List ℝ) (n : ℕ) (thr : ℝ) :
    ((rankDesc scores n thr).map Prod.snd).Nodup := by
  have h0 : ((withIdx scores 0).map Prod.snd).Nodup := withIdx_snd_nodup scores 0
  have h1 : ((List.insertionSort lexLe (withIdx scores 0)).map Prod.snd).Nodup :=
    (((List.perm_insertionSort lexLe (withIdx scores 0)).map Prod.snd).nodup_iff).mpr h0
  have h2 : (((List.insertionSort lexLe (withIdx scores 0)).reverse).map Prod.snd).Nodup := by
    rw [List.map_reverse]
    exact List.nodup_reverse.mpr h1
  have h3 : ((((List.insertionSort lexLe (withIdx scores 0)).reverse).take n).map
      Prod.snd).Nodup :=
    h2.sublist ((List.take_sublist n _).map Prod.snd)
  exact h3.sublist ((filterThr_sublist thr _).map Prod.snd)

theorem listDot_nil_left (y : List ℝ) : listDot [] y = 0 := by
  simp [listDot]

theorem listDot_nil_right (x : List ℝ) : listDot x [] = 0 := by
  cases x <;> simp [listDot]

theorem listDot_cons (a b : ℝ) (as bs : List ℝ) :
    listDot (a :: as) (b :: bs) = a * b + listDot as bs := by
  simp [listDot]

theorem listDot_self_nonneg : ∀ x : List ℝ, 0 ≤ listDot x x
  | [] => by simp [listDot]
  | a :: as => by
    rw [listDot_cons]
    have := listDot_self_nonneg as
    nlinarith [sq_nonneg a]

/-- Cauchy-Schwarz for the list dot product, squared form. -/
theorem listDot_sq_le : ∀ (x y : List ℝ), listDot x y ^ 2 ≤ listDot x x * listDot y y
  | [], y => by simp [listDot_nil_left]
  | a :: as, [] => by simp [listDot_nil_right]
  | a :: as, b :: bs => by
    have ih := listDot_sq_le as bs
    have has := listDot_self_nonneg as
    have hbs := listDot_self_nonneg bs
    rw [listDot_cons, listDot_cons, listDot_cons]
    rcases eq_or_lt_of_le hbs with hB | hB
    · have hsq : listDot as bs ^ 2 = 0 := by
        have h0 : listDot as bs ^ 2 ≤ 0 := by rw [← hB] at ih; linarith [ih]
        exact le_antisymm h0 (sq_nonneg _)
      have hd : listDot as bs = 0 := by
        exact (pow_eq_zero_iff two_ne_zero).mp hsq
      rw [hd, ← hB]
      nlinarith [mul_nonneg has (sq_nonneg b)]
    · nlinarith [sq_nonneg (a * listDot bs bs - b * listDot as bs),
        mul_nonneg (sq_nonneg b) (sub_nonneg.2 ih),
        mul_nonneg hbs (sub_nonneg.2 ih), hB]

/-- Cauchy-Schwarz in square-root form. -/
theorem listDot_le_sqrt (x y : List ℝ) :
    listDot x y ≤ Real.sqrt (listDot x x) * Real.sqrt (listDot y y) := by
  have h1 : listDot x y ≤ |listDot x y| := le_abs_self _
  have h2 : |listDot x y| = Real.sqrt (listDot x y ^ 2) := (Real.sqrt_sq_eq_abs _).symm
  have h3 : Real.sqrt (listDot x y ^ 2) ≤ Real.sqrt (listDot x x * listDot y y) :=
    Real.sqrt_le_sqrt (listDot_sq_le x y)
  rw [Real.sqrt_mul (listDot_self_nonneg x)] at h3
  calc listDot x y ≤ |listDot x y| := h1
    _ = Real.sqrt (listDot x y ^ 2) := h2
    _ ≤ _ := h3

/-- Cosine similarity never exceeds 1. -/
theorem cosSim_le_one (x y : List ℝ) : cosSim x y ≤ 1 := by
  unfold cosSim
  by_cases h : Real.sqrt (listDot x x) * Real.sqrt (listDot y y) = 0
  · rw [h, div_zero]; norm_num
  · have hpos : 0 < Real.sqrt (listDot x x) * Real.sqrt (listDot y y) :=
      lt_of_le_of_ne (mul_nonneg (Real.sqrt_nonneg _) (Real.sqrt_nonneg _)) (Ne.symm h)
    exact (div_le_one hpos).mpr (listDot_le_sqrt x y)

theorem euclid_nonneg (x y : List ℝ) : 0 ≤ euclid x y := Real.sqrt_nonneg _

/-- Model of `RecommendationEngine._similarity_based_recommendations`
(`src/recommendation_engine.py` lines 452-464).  The body reads the name
`user` (lines 459 and 463), but the function's scope only binds `self`,
`user_preference_vector`, `candidate_tracks` and `n_recommendations`, and no
global `user` exists in the module, so every call raises `NameError` before
doing any work. -/
def similarity_based_recommendations (user_preference_vector : List ℝ)
    (candidate_tracks : List String) (n_recommendations : ℕ) :
    Except String (List (String × ℝ)) :=
  Except.error "NameError: name user is not defined"

/-- Model of `RecommendationEngine.find_similar_tracks`
(`src/recommendation_engine.py` lines 223-290): empty candidate list returns
`[]`; a seed-feature fetch failure raises (wrapped by the `except` block at
lines 288-290); candidates whose fetch fails are dropped; the rest are
scored by cosine similarity against the seed vector and ranked by
`np.argsort(similarities)[::-1][:n]` with the `> 0.1` threshold. -/
noncomputable def find_similar_tracks (env : String → Option AudioFeatures)
    (seed_track_uri : String) (candidate_tracks : List String)
    (n_recommendations : ℕ) : Except String (List (String × ℝ)) :=
  if candidate_tracks.isEmpty then Except.ok []
  else
    match env seed_track_uri with
    | none => Except.error "Failed to find similar tracks: no audio features for seed track"
    | some sf =>
      let valid := resolveCandidates env candidate_tracks
      if valid.isEmpty then Except.ok []
      else
        let sims := valid.map fun p => cosSim (extract_feature_vector sf) p.2
        Except.ok ((rankDesc sims n_recommendations (1 / 10)).map
          fun q => ((valid.map Prod.fst).getD q.2 "", q.1))

/-- The pretrained artifacts consumed by the cluster scorer: the
`StandardScaler` row transform and the `KMeans` cluster assignment.  They
are opaque objects loaded from disk at engine construction (lines 48-49), so
they are modelled as abstract functions. -/
structure ClusterModels where
  scaler : List ℝ → List ℝ
  predict : List ℝ → ℕ

/-- The same-cluster candidates of `cluster_based_recommendations`
(lines 316-355): resolve candidate features (failures dropped), scale them,
and keep those whose predicted cluster equals the scaled user vector's
predicted cluster, with their URIs. -/
noncomputable def cluster_keep (m : ClusterModels) (env : String → Option AudioFeatures)
    (user_preference_vector : List ℝ) (candidate_tracks : List String) :
    List (String × List ℝ) :=
  ((resolveCandidates env candidate_tracks).map fun p => (p.1, m.scaler p.2)).filter
    fun p => m.predict p.2 == m.predict (m.scaler user_preference_vector)

/-- The distances computed at line 357: Euclidean distance from the scaled
user vector to each same-cluster scaled candidate. -/
noncomputable def clusterDistances (m : ClusterModels) (env : String → Option AudioFeatures)
    (user_preference_vector : List ℝ) (candidate_tracks : List String) : List ℝ :=
  (cluster_keep m env user_preference_vector candidate_tracks).map
    fun p => euclid (m.scaler user_preference_vector) p.2

/-- The divisor of line 360: `np.max(distances) if np.max(distances) > 0 else 1`.
Distances are nonnegative, so `np.max` over the nonempty batch coincides
with `foldr max 0`. -/
noncomputable def maxDistance (ds : List ℝ) : ℝ :=
  if 0 < ds.foldr max 0 then ds.foldr max 0 else 1

/-- The confidence scores of line 361: `1 - distances / max_distance`. -/
noncomputable def clusterConfidences (m : ClusterModels) (env : String → Option AudioFeatures)
    (user_preference_vector : List ℝ) (candidate_tracks : List String) : List ℝ :=
  (clusterDistances m env user_preference_vector candidate_tracks).map
    fun d => 1 - d / maxDistance (clusterDistances m env user_preference_vector candidate_tracks)

/-- Model of `RecommendationEngine.cluster_based_recommendations`
(lines 292-375): missing models or empty candidate/valid/same-cluster lists
yield `[]`; otherwise rank the confidence scores with
`np.argsort(confidence_scores)[::-1][:n]` and the `> 0.2` threshold. -/
noncomputable def cluster_based_recommendations (models : Option ClusterModels)
    (env : String → Option AudioFeatures) (user_preference_vector : List ℝ)
    (candidate_tracks : List String) (n_recommendations : ℕ) : List (String × ℝ) :=
  match models with
  | none => []
  | some m =>
    if candidate_tracks.isEmpty then []
    else if (resolveCandidates env candidate_tracks).isEmpty then []
    else if (cluster_keep m env user_preference_vector candidate_tracks).isEmpty then []
    else
      (rankDesc (clusterConfidences m env user_preference_vector candidate_tracks)
          n_recommendations (1 / 5)).map
        fun q =>
          (((cluster_keep m env user_preference_vector candidate_tracks).map Prod.fst).getD
            q.2 "", q.1)

/-- Python dict lookup with default 0: `combined_scores.get(track_uri, 0)`
(lines 487 and 491). -/
def lookup0 (t : String) : List (String × ℝ) → ℝ
  | [] => 0
  | p :: ps => if p.1 = t then p.2 else lookup0 t ps

/-- Python dict assignment `d[t] = d.get(t, 0) + v`: an existing key keeps
its insertion position and gets the value added; a fresh key is appended. -/
def dictInsertAdd (t : String) (v : ℝ) : List (String × ℝ) → List (String × ℝ)
  | [] => [(t, v)]
  | p :: ps => if p.1 = t then (p.1, p.2 + v) :: ps else p :: dictInsertAdd t v ps

/-- The `combined_scores` dict built at lines 483-491: similarity entries
contribute `score * 0.6`, clustering entries `score * 0.4`, accumulated in
insertion order. -/
noncomputable def hybridDict (similarity_recs clustering_recs : List (String × ℝ)) :
    List (String × ℝ) :=
  clustering_recs.foldl (fun d p => dictInsertAdd p.1 (p.2 * (2 / 5)) d)
    (similarity_recs.foldl (fun d p => dictInsertAdd p.1 (p.2 * (3 / 5)) d) [])

/-- Order realised by `sorted(combined_scores.items(), key=lambda x: x[1],
reverse=True)` at lines 494-496 on (entry, insertion index) pairs: Python's
sort is stable, so descending value with ties in insertion order. -/
def hybLe (a b : (String × ℝ) × ℕ) : Prop :=
  b.1.2 < a.1.2 ∨ (a.1.2 = b.1.2 ∧ a.2 ≤ b.2)

noncomputable instance : DecidableRel hybLe := fun a b => by
  unfold hybLe; infer_instance

instance : IsTotal ((String × ℝ) × ℕ) hybLe where
  total a b := by
    rcases lt_trichotomy a.1.2 b.1.2 with h | h | h
    · exact Or.inr (Or.inl h)
    · rcases Nat.le_total a.2 b.2 with h2 | h2
      · exact Or.inl (Or.inr ⟨h, h2⟩)
      · exact Or.inr (Or.inr ⟨h.symm, h2⟩)
    · exact Or.inl (Or.inl h)

instance : IsTrans ((String × ℝ) × ℕ) hybLe where
  trans a b c hab hbc := by
    rcases hab with h1 | ⟨h1, h1n⟩
    · rcases hbc with h2 | ⟨h2, _⟩
      · exact Or.inl (h2.trans h1)
      · exact Or.inl (h2 ▸ h1)
    · rcases hbc with h2 | ⟨h2, h2n⟩
      · exact Or.inl (h1 ▸ h2)
      · exact Or.inr ⟨h1.trans h2, h1n.trans h2n⟩

/-- The blending of `_hybrid_recommendations` (lines 482-498) as a function
of the two sub-scorer outputs: build the weighted `combined_scores` dict,
sort its items by descending combined score (stable), and keep the first
`n` entries. -/
noncomputable def hybridBlend (similarity_recs clustering_recs : List (String × ℝ))
    (n_recommendations : ℕ) : List (String × ℝ) :=
  ((List.insertionSort hybLe
      (withIdx (hybridDict similarity_recs clustering_recs) 0)).map Prod.fst).take
    n_recommendations

/-- The invocation pattern of `_hybrid_recommendations` (lines 466-498): each
sub-scorer is called on the same candidates requesting `n * 2` entries, and
their outputs are blended down to `n`. -/
noncomputable def run_hybrid
    (simScorer : List String → ℕ → Except String (List (String × ℝ)))
    (cluScorer : List String → ℕ → List (String × ℝ))
    (candidate_tracks : List String) (n_recommendations : ℕ) :
    Except String (List (String × ℝ)) := do
  let similarity_recs ← simScorer candidate_tracks (n_recommendations * 2)
  let clustering_recs := cluScorer candidate_tracks (n_recommendations * 2)
  Except.ok (hybridBlend similarity_recs clustering_recs n_recommendations)

/-- Model of `RecommendationEngine._hybrid_recommendations` with the engine's
own sub-scorers plugged in.  Because `_similarity_based_recommendations`
raises `NameError` on every call, this always propagates that error. -/
noncomputable def hybrid_recommendations (models : Option ClusterModels)
    (env : String → Option AudioFeatures) (user_preference_vector : List ℝ)
    (candidate_tracks : List String) (n_recommendations : ℕ) :
    Except String (List (String × ℝ)) :=
  run_hybrid (fun c m => similarity_based_recommendations user_preference_vector c m)
    (fun c m => cluster_based_recommendations models env user_preference_vector c m)
    candidate_tracks n_recommendations

/-- The known-track set of `generate_recommendations` (lines 402-404). -/
def known_tracks (u : User) : List String :=
  u.loved_it ++ u.like_it ++ u.okay ++ u.hate_it ++ u.recently_searched

/-- The candidate filter of `generate_recommendations` (line 405). -/
def filtered_candidates (u : User) (candidate_tracks : List String) : List String :=
  candidate_tracks.filter fun t => !(known_tracks u).contains t

/-- The metadata-resolution loop of `generate_recommendations`
(lines 427-436): each `(track_uri, confidence)` is resolved through the
catalog; on success both the `Track` and the confidence are appended, on
failure both are skipped. -/
def resolve_recommendations (info : String → Option Track) :
    List (String × ℝ) → List Track × List ℝ
  | [] => ([], [])
  | (t, c) :: rest =>
    let r := resolve_recommendations info rest
    match info t with
    | some tr => (tr :: r.1, c :: r.2)
    | none => r

/-- Model of `RecommendationEngine.generate_recommendations`
(lines 377-450): build the preference vector, filter out known tracks,
fail when nothing new remains, dispatch on the algorithm name
(`"similarity"`, `"clustering"`, anything else means hybrid), resolve
metadata and construct the result.  The single `except` block at lines
448-450 wraps every escaping error into `PlaylistGenerationError` with the
prefix `Failed to generate recommendations:`.  Wall-clock timing is not
modelled; `processing_time` is 0. -/
noncomputable def generate_recommendations (env : String → Option AudioFeatures)
    (models : Option ClusterModels) (info : String → Option Track) (u : User)
    (candidate_tracks : List String) (n_recommendations : ℕ) (algorithm : String) :
    Except String RecommendationResult :=
  Except.mapError (fun e => "Failed to generate recommendations: " ++ e) <| do
    let user_preference_vector ← get_user_preference_vector env u
    let filtered := filtered_candidates u candidate_tracks
    if filtered.isEmpty then
      Except.error "No new tracks available for recommendation"
    else do
      let recs ←
        if algorithm = "similarity" then
          similarity_based_recommendations user_preference_vector filtered n_recommendations
        else if algorithm = "clustering" then
          Except.ok (cluster_based_recommendations models env user_preference_vector
            filtered n_recommendations)
        else
          hybrid_recommendations models env user_preference_vector filtered n_recommendations
      let resolved := resolve_recommendations info recs
      mkRecommendationResult resolved.1 resolved.2 algorithm 0

theorem mapError_eq_ok {ε ε' α : Type} (f : ε → ε') (x : Except ε α) (r : α) :
    Except.mapError f x = Except.ok r ↔ x = Except.ok r := by
  cases x <;> simp [Except.mapError]

/-- The metadata-resolution loop keeps the two output lists in lockstep. -/
theorem resolve_recommendations_lengths (info : String → Option Track) :
    ∀ recs : List (String × ℝ),
      (resolve_recommendations info recs).1.length =
        (resolve_recommendations info recs).2.length
  | [] => rfl
  | (t, c) :: rest => by
    unfold resolve_recommendations
    cases info t <;> simp [resolve_recommendations_lengths info rest]

/-- Constructing a `RecommendationResult` succeeds exactly when the parallel
lists have equal length. -/
theorem mkRecommendationResult_ok_iff (ts : List Track) (cs : List ℝ)
    (alg : String) (pt : ℝ) :
    (∃ r, mkRecommendationResult ts cs alg pt = Except.ok r) ↔ ts.length = cs.length := by
  unfold mkRecommendationResult
  by_cases h : ts.length = cs.length
  · simp [h]
  · simp [h]

/-- A successfully constructed result carries the equal-length lists it was
built from. -/
theorem mkRecommendationResult_lengths (ts : List Track) (cs : List ℝ) (alg : String)
    (pt : ℝ) (r : RecommendationResult)
    (h : mkRecommendationResult ts cs alg pt = Except.ok r) :
    r.recommended_tracks.length = r.confidence_scores.length := by
  unfold mkRecommendationResult at h
  by_cases hlen : ts.length = cs.length
  · rw [if_pos hlen] at h
    cases h
    exact hlen
  · rw [if_neg hlen] at h
    cases h

/-- Any `RecommendationResult` coming out of `generate_recommendations` has
equal-length track and score lists. -/
theorem generate_recommendations_ok_lengths (env : String → Option AudioFeatures)
    (models : Option ClusterModels) (info : String → Option Track) (u : User)
    (cands : List String) (n : ℕ) (alg : String) (r : RecommendationResult)
    (h : generate_recommendations env models info u cands n alg = Except.ok r) :
    r.recommended_tracks.length = r.confidence_scores.length := by
  unfold generate_recommendations at h
  rw [mapError_eq_ok] at h
  cases hpref : get_user_preference_vector env u with
  | error e => rw [hpref] at h; simp [Bind.bind, Except.bind] at h
  | ok v =>
    rw [hpref] at h
    simp only [Bind.bind, Except.bind] at h
    by_cases hf : (filtered_candidates u cands).isEmpty
    · simp [hf] at h
    · simp only [hf, Bool.false_eq_true, if_false] at h
      split at h
      · split at h
        · cases h
        · exact mkRecommendationResult_lengths _ _ _ _ _ h
      · split at h
        · exact mkRecommendationResult_lengths _ _ _ _ _ h
        · split at h
          · cases h
          · exact mkRecommendationResult_lengths _ _ _ _ _ h

/-- C1: every `RecommendationResult` has equally long `recommended_tracks`
and `confidence_scores`: the validating constructor accepts exactly
equal-length lists, the orchestrator's metadata-resolution loop drops a
track and its score together so its two outputs always have equal length,
and any result returned by `generate_recommendations` satisfies the
invariant. -/
theorem C1_recommendation_result_parallel_lengths
    (info : String → Option Track) (recs : List (String × ℝ)) (ts : List Track)
    (cs : List ℝ) (alg : String) (pt : ℝ) (env : String → Option AudioFeatures)
    (models : Option ClusterModels) (u : User) (cands : List String) (n : ℕ)
    (a : String) :
    (resolve_recommendations info recs).1.length =
      (resolve_recommendations info recs).2.length
    ∧ ((∃ r, mkRecommendationResult ts cs alg pt = Except.ok r) ↔ ts.length = cs.length)
    ∧ (∀ r, generate_recommendations env models info u cands n a = Except.ok r →
        r.recommended_tracks.length = r.confidence_scores.length) :=
  ⟨resolve_recommendations_lengths info recs,
   mkRecommendationResult_ok_iff ts cs alg pt,
   fun r h => generate_recommendations_ok_lengths env models info u cands n a r h⟩

/-- Witness for C1: a concrete orchestration call that returns a result, on
which the invariant is checked by applying the theorem. -/
theorem C1_witness :
    ∃ r, generate_recommendations (fun _ => none) none (fun _ => none)
        { username := "w", loved_it := [], like_it := [], okay := [], hate_it := [],
          recently_searched := [] }
        ["c1"] 1 "clustering" = Except.ok r
      ∧ r.recommended_tracks.length = r.confidence_scores.length := by
  refine ⟨{ recommended_tracks := [], confidence_scores := [],
            algorithm_used := "clustering", processing_time := 0 }, rfl, ?_⟩
  exact (C1_recommendation_result_parallel_lengths (fun _ => none) [] [] [] "x" 0
    (fun _ => none) none
    { username := "w", loved_it := [], like_it := [], okay := [], hate_it := [],
      recently_searched := [] }
    ["c1"] 1 "clustering").2.2 _ rfl

/-- An all-zero `AudioFeatures` record (a valid one: every checked field is
in `[0, 1]`), used as a concrete catalog entry in evaluations. -/
def af0 : AudioFeatures :=
  { danceability := 0, energy := 0, key := 0, loudness := 0, mode := 0, speechiness := 0,
    acousticness := 0, instrumentalness := 0, liveness := 0, valence := 0, tempo := 0,
    duration_ms := 0, time_signature := 0 }

/-- The concrete `AudioFeatures` of the spec scenario for the preference
vector: danceability 0.8, energy 0.6, all other fields 0. -/
noncomputable def af1 : AudioFeatures :=
  { danceability := 4 / 5, energy := 3 / 5, key := 0, loudness := 0, mode := 0,
    speechiness := 0, acousticness := 0, instrumentalness := 0, liveness := 0, valence := 0,
    tempo := 0, duration_ms := 0, time_signature := 0 }

/-- C2: the known-set filtering.  First conjunct: the spec's scenario — a
user who only hates `known1`, with `known1` the sole candidate — does fail
with the `PlaylistGenerationError` "no new tracks available" condition.
Second conjunct, the code bug: for a user with a non-empty positive list
(`loved_it = [t1]`) and only known candidates, the call fails before ever
reaching the known-set filter, with the preference-vector `AttributeError`
wrapper instead of the "no new tracks available" condition, because
`get_user_preference_vector` crashes at line 214 (`weights.flatten()` on a
Python list). -/
theorem C2_no_new_tracks_condition_eval :
    generate_recommendations (fun t => if t = "known1" then some af0 else none) none
        (fun _ => none)
        { username := "u", loved_it := [], like_it := [], okay := [],
          hate_it := ["known1"], recently_searched := [] }
        ["known1"] 10 "hybrid" =
      Except.error "Failed to generate recommendations: No new tracks available for recommendation"
    ∧ generate_recommendations (fun t => if t = "t1" then some af0 else none) none
        (fun _ => none)
        { username := "u", loved_it := ["t1"], like_it := [], okay := [],
          hate_it := [], recently_searched := [] }
        ["t1"] 10 "hybrid" =
      Except.error
        "Failed to generate recommendations: Failed to generate preference vector: AttributeError: list object has no attribute flatten" :=
  ⟨rfl, rfl⟩

/-- C3: the code bug refuting the weighted-mean contract of the Preference
Aggregator.  At the spec's own scenario — a user whose single loved track
`t1` has danceability 0.8 and energy 0.6 and whose feature fetch succeeds —
`get_user_preference_vector` does not return any preference vector at all:
line 214 evaluates `weights.flatten()` on a plain Python list, raising
`AttributeError`, which lines 219-221 wrap into `PlaylistGenerationError`. -/
theorem C3_preference_vector_crash_eval :
    get_user_preference_vector (fun t => if t = "t1" then some af1 else none)
        { username := "u", loved_it := ["t1"], like_it := [], okay := [],
          hate_it := [], recently_searched := [] } =
      Except.error
        "Failed to generate preference vector: AttributeError: list object has no attribute flatten" :=
  rfl

/-- C4: the per-track weights of the preference aggregator follow the
`if/elif` chain of lines 200-208: loved tracks weigh 1.0, otherwise liked
weigh 0.7, otherwise okay weigh 0.4, otherwise (recently searched) 0.3; in
particular a track in both `loved_it` and `okay` gets the loved weight 1.0,
the priority being loved > liked > okay > recently-searched. -/
theorem C4_preference_weights (u : User) (t : String) :
    (t ∈ u.loved_it → preference_weight u t = 1)
    ∧ (t ∉ u.loved_it → t ∈ u.like_it → preference_weight u t = 7 / 10)
    ∧ (t ∉ u.loved_it → t ∉ u.like_it → t ∈ u.okay → preference_weight u t = 2 / 5)
    ∧ (t ∉ u.loved_it → t ∉ u.like_it → t ∉ u.okay → preference_weight u t = 3 / 10)
    ∧ (t ∈ u.loved_it → t ∈ u.okay → preference_weight u t = 1) := by
  unfold preference_weight
  exact ⟨fun h => by rw [if_pos h],
    fun h1 h2 => by rw [if_neg h1, if_pos h2],
    fun h1 h2 h3 => by rw [if_neg h1, if_neg h2, if_pos h3],
    fun h1 h2 h3 => by rw [if_neg h1, if_neg h2, if_neg h3],
    fun h _ => by rw [if_pos h]⟩

/-- Witness for C4: a concrete track in both `loved_it` and `okay` is
weighted 1.0, not 0.4. -/
theorem C4_witness :
    preference_weight
      { username := "u", loved_it := ["x"], like_it := [], okay := ["x"], hate_it := [],
        recently_searched := [] } "x" = 1 :=
  (C4_preference_weights
    { username := "u", loved_it := ["x"], like_it := [], okay := ["x"], hate_it := [],
      recently_searched := [] } "x").2.2.2.2 (by decide) (by decide)

/-- C8: the code bug in similarity mode.  First conjunct:
`_similarity_based_recommendations` raises `NameError` on every call (its
body reads the unbound name `user` at line 459), instead of seeding from
`recently_searched`.  Second conjunct: for a user with empty
`recently_searched` — where the claim says similarity mode yields an empty
result without raising — `generate_recommendations` with
`algorithm = "similarity"` raises the wrapped `NameError` instead. -/
theorem C8_similarity_mode_raises_eval :
    similarity_based_recommendations (List.replicate 12 0) ["c1"] 10 =
      Except.error "NameError: name user is not defined"
    ∧ generate_recommendations (fun _ => none) none (fun _ => none)
        { username := "u", loved_it := [], like_it := [], okay := [], hate_it := [],
          recently_searched := [] }
        ["c1"] 10 "similarity" =
      Except.error "Failed to generate recommendations: NameError: name user is not defined" :=
  ⟨rfl, rfl⟩

/-- C10 counterexample: `AudioFeatures` construction does NOT enforce a
valid range on all 13 fields.  A record with key 99, loudness 999, mode -5,
tempo -3, duration -1 and time-signature 0 — all far outside any plausible
valid range for those fields — is accepted, because `__post_init__` only
checks the seven unit-interval float fields. -/
theorem C10_out_of_range_accepted_counterexample :
    mkAudioFeatures (1 / 2) (1 / 2) 99 999 (-5) (1 / 2) (1 / 2) (1 / 2) (1 / 2) (1 / 2)
        (-3) (-1) 0 =
      Except.ok
        { danceability := 1 / 2, energy := 1 / 2, key := 99, loudness := 999, mode := -5,
          speechiness := 1 / 2, acousticness := 1 / 2, instrumentalness := 1 / 2,
          liveness := 1 / 2, valence := 1 / 2, tempo := -3, duration_ms := -1,
          time_signature := 0 } := by
  unfold mkAudioFeatures
  norm_num

/-- C10 amended: `AudioFeatures` construction succeeds exactly when the seven
unit-interval fields (danceability, energy, speechiness, acousticness,
instrumentalness, liveness, valence) each lie in `[0, 1]`; the six remaining
fields (key, loudness, mode, tempo, duration, time-signature) are not
validated at all. -/
theorem C10_validation_exactly_unit_interval_fields
    (d e : ℝ) (k : ℤ) (lo : ℝ) (mo : ℤ) (sp ac ins liv va te : ℝ) (du ts : ℤ) :
    (∃ af, mkAudioFeatures d e k lo mo sp ac ins liv va te du ts = Except.ok af) ↔
      ((0 ≤ d ∧ d ≤ 1) ∧ (0 ≤ e ∧ e ≤ 1) ∧ (0 ≤ sp ∧ sp ≤ 1) ∧ (0 ≤ ac ∧ ac ≤ 1) ∧
        (0 ≤ ins ∧ ins ≤ 1) ∧ (0 ≤ liv ∧ liv ≤ 1) ∧ (0 ≤ va ∧ va ≤ 1)) := by
  unfold mkAudioFeatures
  split_ifs with h1 h2 h3 h4 h5 h6 h7 <;> simp_all [not_le]

/-- On the clustering path, once the preference vector is built and some
candidate survives the filter, the orchestration always completes. -/
theorem generate_clustering_ok (env : String → Option AudioFeatures)
    (models : Option ClusterModels) (info : String → Option Track) (u : User)
    (cands : List String) (n : ℕ) (v : List ℝ)
    (hpref : get_user_preference_vector env u = Except.ok v)
    (hne : (filtered_candidates u cands).isEmpty = false) :
    generate_recommendations env models info u cands n "clustering" =
      Except.ok
        { recommended_tracks :=
            (resolve_recommendations info
              (cluster_based_recommendations models env v (filtered_candidates u cands) n)).1,
          confidence_scores :=
            (resolve_recommendations info
              (cluster_based_recommendations models env v (filtered_candidates u cands) n)).2,
          algorithm_used := "clustering", processing_time := 0 } := by
  have hmk := mkRecommendationResult_ok_iff
    (resolve_recommendations info
      (cluster_based_recommendations models env v (filtered_candidates u cands) n)).1
    (resolve_recommendations info
      (cluster_based_recommendations models env v (filtered_candidates u cands) n)).2
    "clustering" 0
  unfold generate_recommendations
  rw [hpref]
  simp only [Bind.bind, Except.bind, hne, Bool.false_eq_true, if_false]
  rw [if_neg (by decide : ¬("clustering" : String) = "similarity")]
  simp only [if_true]
  unfold mkRecommendationResult
  rw [if_pos (resolve_recommendations_lengths info _)]
  rfl

/-- C9: a user whose loved, liked, okay and recently-searched lists are all
empty gets the 12-component zero vector as preference vector rather than an
error, every component of that vector is 0, and the zero vector is accepted
downstream: with any models and catalog, a `"clustering"` call for such a
user succeeds whenever some candidate survives the known-track filter. -/
theorem C9_empty_preferences_zero_vector (env : String → Option AudioFeatures)
    (models : Option ClusterModels) (info : String → Option Track) (u : User)
    (cands : List String) (n : ℕ) (h1 : u.loved_it = []) (h2 : u.like_it = [])
    (h3 : u.okay = []) (h4 : u.recently_searched = []) :
    get_user_preference_vector env u = Except.ok (List.replicate 12 0)
    ∧ (∀ x ∈ List.replicate 12 (0 : ℝ), x = 0)
    ∧ ((filtered_candidates u cands).isEmpty = false →
        ∃ r, generate_recommendations env models info u cands n "clustering" =
          Except.ok r) := by
  have hpref : get_user_preference_vector env u = Except.ok (List.replicate 12 0) := by
    unfold get_user_preference_vector
    rw [h1, h2, h3, h4]
    simp
  refine ⟨hpref, by simp, fun hne => ?_⟩
  exact ⟨_, generate_clustering_ok env models info u cands n _ hpref hne⟩

/-- Witness for C9: a concrete user with all preference lists empty, one
fresh candidate, and absent clustering models. -/
theorem C9_witness :
    ∃ r, generate_recommendations (fun _ => none) none (fun _ => none)
        { username := "w9", loved_it := [], like_it := [], okay := [], hate_it := [],
          recently_searched := [] }
        ["c1"] 1 "clustering" = Except.ok r :=
  (C9_empty_preferences_zero_vector (fun _ => none) none (fun _ => none)
    { username := "w9", loved_it := [], like_it := [], okay := [], hate_it := [],
      recently_searched := [] }
    ["c1"] 1 rfl rfl rfl rfl).2.2 rfl

/-- C5 (amended): the Similarity Scorer returns at most `top_n` pairs, each
score lies in `(0.1, 1]`, the output is sorted by descending score, and the
order is that of `np.argsort(...)[::-1]`: the ranking step is sorted by
descending score with ties carrying the LARGER original candidate index
first (reverse original order, not original order), the output being the
URI-resolved image of that ranking. -/
theorem C5_similarity_scorer_ranking (env : String → Option AudioFeatures)
    (seed : String) (cands : List String) (n : ℕ) (out : List (String × ℝ))
    (h : find_similar_tracks env seed cands n = Except.ok out) :
    out.length ≤ n
    ∧ (∀ p ∈ out, 1 / 10 < p.2 ∧ p.2 ≤ 1)
    ∧ out.Pairwise (fun a b => b.2 ≤ a.2)
    ∧ (∀ scores : List ℝ, ∀ m : ℕ, ∀ thr : ℝ,
        (rankDesc scores m thr).Pairwise
          (fun a b => b.1 < a.1 ∨ (b.1 = a.1 ∧ b.2 ≤ a.2))
        ∧ ((rankDesc scores m thr).map Prod.snd).Nodup)
    ∧ (∀ sf, env seed = some sf →
        out = (rankDesc ((resolveCandidates env cands).map
              fun p => cosSim (extract_feature_vector sf) p.2) n (1 / 10)).map
            fun q => (((resolveCandidates env cands).map Prod.fst).getD q.2 "", q.1)) := by
  have hrankpw : ∀ scores : List ℝ, ∀ m : ℕ, ∀ thr : ℝ,
      (rankDesc scores m thr).Pairwise
        (fun a b => b.1 < a.1 ∨ (b.1 = a.1 ∧ b.2 ≤ a.2))
      ∧ ((rankDesc scores m thr).map Prod.snd).Nodup :=
    fun s m t => ⟨(rankDesc_pairwise s m t).imp (fun hab => hab), rankDesc_idx_nodup s m t⟩
  unfold find_similar_tracks at h
  by_cases hc : cands.isEmpty
  · rw [if_pos hc] at h
    have hout : out = [] := by injection h with h'; exact h'.symm
    subst hout
    have hcnil : cands = [] := List.isEmpty_iff.mp hc
    subst hcnil
    refine ⟨by simp, by simp, by simp, hrankpw, ?_⟩
    intro sf _
    simp [resolveCandidates, rankDesc, withIdx, filterThr, List.insertionSort]
  · rw [if_neg hc] at h
    cases henv : env seed with
    | none => rw [henv] at h; cases h
    | some sf =>
      rw [henv] at h
      dsimp only at h
      by_cases hv : (resolveCandidates env cands).isEmpty
      · rw [if_pos hv] at h
        have hout : out = [] := by injection h with h'; exact h'.symm
        subst hout
        have hvnil : resolveCandidates env cands = [] := List.isEmpty_iff.mp hv
        refine ⟨by simp, by simp, by simp, hrankpw, ?_⟩
        intro sf' hsf'
        injection hsf' with he
        subst he
        simp [hvnil, rankDesc, withIdx, filterThr, List.insertionSort]
      · rw [if_neg hv] at h
        have hout : out = (rankDesc ((resolveCandidates env cands).map
              fun p => cosSim (extract_feature_vector sf) p.2) n (1 / 10)).map
            fun q => (((resolveCandidates env cands).map Prod.fst).getD q.2 "", q.1) := by
          injection h with h'
          exact h'.symm
        subst hout
        refine ⟨?_, ?_, ?_, hrankpw, ?_⟩
        · rw [List.length_map]
          exact rankDesc_length_le _ _ _
        · intro p hp
          obtain ⟨q, hq, rfl⟩ := List.mem_map.mp hp
          obtain ⟨hthr, hmem⟩ := rankDesc_mem hq
          refine ⟨hthr, ?_⟩
          obtain ⟨pr, _, hpr⟩ := List.mem_map.mp hmem
          rw [← hpr]
          exact cosSim_le_one _ _
        · refine (rankDesc_pairwise _ _ _).map _ ?_
          intro a b hab
          rcases hab with h' | ⟨h', _⟩
          · exact le_of_lt h'
          · exact le_of_eq h'
        · intro sf' hsf'
          injection hsf' with he
          subst he
          rfl

/-- A small concrete catalog: seed `s` and candidates `c1`, `c2` all have the
all-zero (valid) audio features, hence identical feature vectors. -/
def env5 : String → Option AudioFeatures :=
  fun t => if t = "s" ∨ t = "c1" ∨ t = "c2" then some af0 else none

theorem listDot_af0 :
    listDot (extract_feature_vector af0) (extract_feature_vector af0) = 1 := by
  norm_num [extract_feature_vector, listDot, af0]

theorem cosSim_af0 :
    cosSim (extract_feature_vector af0) (extract_feature_vector af0) = 1 := by
  unfold cosSim
  rw [listDot_af0, Real.sqrt_one]
  norm_num

/-- C5 counterexample: ties are NOT broken by original candidate order.  With
seed `s` and candidates `[c1, c2]` all having identical feature vectors, both
cosine similarities are 1, and the scorer returns `c2` before `c1`:
`np.argsort` places index 0 before index 1 in its stable ascending order,
and the `[::-1]` reversal then emits index 1 first. -/
theorem C5_ties_reversed_counterexample :
    find_similar_tracks env5 "s" ["c1", "c2"] 10 =
      Except.ok [("c2", 1), ("c1", 1)] := by
  have h110 : (1 : ℝ) / 10 < 1 := by norm_num
  have hlex : lexLe (1, 0) (1, 1) := Or.inr ⟨rfl, by norm_num⟩
  have step1 : find_similar_tracks env5 "s" ["c1", "c2"] 10 =
      Except.ok ((rankDesc
          [cosSim (extract_feature_vector af0) (extract_feature_vector af0),
           cosSim (extract_feature_vector af0) (extract_feature_vector af0)] 10 (1 / 10)).map
        fun q => ((["c1", "c2"] : List String).getD q.2 "", q.1)) := rfl
  rw [step1, cosSim_af0]
  have hsort : List.insertionSort lexLe (withIdx [(1 : ℝ), 1] 0) =
      [((1 : ℝ), 0), (1, 1)] := by
    show List.insertionSort lexLe [((1 : ℝ), 0), (1, 1)] = [((1 : ℝ), 0), (1, 1)]
    simp only [List.insertionSort, List.orderedInsert]
    rw [if_pos hlex]
  have step2 : rankDesc [(1 : ℝ), 1] 10 (1 / 10) = [((1 : ℝ), 1), (1, 0)] := by
    unfold rankDesc
    rw [hsort]
    have htk : (([((1 : ℝ), 0), (1, 1)].reverse).take 10) = [((1 : ℝ), 1), (1, 0)] := rfl
    rw [htk]
    simp only [filterThr, h110, if_true]
  rw [step2]
  rfl

/-- Witness for C5: a concrete call with one candidate identical to the seed
returns that candidate with score exactly 1; the amended theorem applies to
it. -/
theorem C5_witness :
    find_similar_tracks env5 "s" ["c1"] 1 = Except.ok [("c1", (1 : ℝ))]
    ∧ [("c1", (1 : ℝ))].length ≤ 1
    ∧ (∀ p ∈ [("c1", (1 : ℝ))], 1 / 10 < p.2 ∧ p.2 ≤ 1) := by
  have h110 : (1 : ℝ) / 10 < 1 := by norm_num
  have step1 : find_similar_tracks env5 "s" ["c1"] 1 =
      Except.ok ((rankDesc
          [cosSim (extract_feature_vector af0) (extract_feature_vector af0)] 1 (1 / 10)).map
        fun q => ((["c1"] : List String).getD q.2 "", q.1)) := rfl
  have heval : find_similar_tracks env5 "s" ["c1"] 1 = Except.ok [("c1", (1 : ℝ))] := by
    rw [step1, cosSim_af0]
    have step2 : rankDesc [(1 : ℝ)] 1 (1 / 10) = [((1 : ℝ), 0)] := by
      unfold rankDesc
      have hsort : List.insertionSort lexLe (withIdx [(1 : ℝ)] 0) = [((1 : ℝ), 0)] := by
        show List.insertionSort lexLe [((1 : ℝ), 0)] = [((1 : ℝ), 0)]
        simp only [List.insertionSort, List.orderedInsert]
      rw [hsort]
      have htk : (([((1 : ℝ), 0)].reverse).take 1) = [((1 : ℝ), 0)] := rfl
      rw [htk]
      simp only [filterThr, h110, if_true]
    rw [step2]
    rfl
  have h := C5_similarity_scorer_ranking env5 "s" ["c1"] 1 [("c1", (1 : ℝ))] heval
  exact ⟨heval, h.1, h.2.1⟩

theorem maxDistance_pos (ds : List ℝ) : 0 < maxDistance ds := by
  unfold maxDistance
  split_ifs with h
  · exact h
  · norm_num

theorem clusterDistances_nonneg (m : ClusterModels) (env : String → Option AudioFeatures)
    (v : List ℝ) (cands : List String) :
    ∀ d ∈ clusterDistances m env v cands, 0 ≤ d := by
  intro d hd
  obtain ⟨p, _, rfl⟩ := List.mem_map.mp hd
  exact euclid_nonneg _ _

theorem clusterConfidences_le_one (m : ClusterModels) (env : String → Option AudioFeatures)
    (v : List ℝ) (cands : List String) :
    ∀ c ∈ clusterConfidences m env v cands, c ≤ 1 := by
  intro c hc
  obtain ⟨d, hd, rfl⟩ := List.mem_map.mp hc
  have hd0 : 0 ≤ d := clusterDistances_nonneg m env v cands d hd
  have hdiv : 0 ≤ d / maxDistance (clusterDistances m env v cands) :=
    div_nonneg hd0 (maxDistance_pos _).le
  linarith

theorem foldr_max_zero : ∀ ds : List ℝ, (∀ d ∈ ds, d = 0) → ds.foldr max 0 = 0
  | [], _ => rfl
  | d :: ds, h => by
    have hd : d = 0 := h d (List.mem_cons_self _ _)
    have hds : ds.foldr max 0 = 0 :=
      foldr_max_zero ds fun x hx => h x (List.mem_cons_of_mem d hx)
    simp [hd, hds]

/-- C6: cluster-scorer confidences.  (i) Every returned `(uri, confidence)`
pair of `cluster_based_recommendations` has confidence in `(0.2, 1]` — the
`> 0.2` filter excludes everything at or below 0.2, and
`1 - distance / max_distance` never exceeds 1 because distances are
nonnegative and the divisor positive.  (ii) Every computed confidence is at
most 1.  (iii) The division guard: when all batch distances are 0 the
divisor is 1.  (iv) In that case every candidate's confidence is exactly 1. -/
theorem C6_cluster_scorer_confidences (models : Option ClusterModels)
    (env : String → Option AudioFeatures) (v : List ℝ) (cands : List String) (n : ℕ) :
    (∀ p ∈ cluster_based_recommendations models env v cands n, 1 / 5 < p.2 ∧ p.2 ≤ 1)
    ∧ (∀ m : ClusterModels, ∀ c ∈ clusterConfidences m env v cands, c ≤ 1)
    ∧ (∀ m : ClusterModels, (∀ d ∈ clusterDistances m env v cands, d = 0) →
        maxDistance (clusterDistances m env v cands) = 1)
    ∧ (∀ m : ClusterModels, (∀ d ∈ clusterDistances m env v cands, d = 0) →
        ∀ c ∈ clusterConfidences m env v cands, c = 1) := by
  refine ⟨?_, fun m => clusterConfidences_le_one m env v cands, ?_, ?_⟩
  · intro p hp
    unfold cluster_based_recommendations at hp
    cases models with
    | none => exact absurd hp (List.not_mem_nil p)
    | some m =>
      dsimp only at hp
      split at hp
      · exact absurd hp (List.not_mem_nil p)
      · split at hp
        · exact absurd hp (List.not_mem_nil p)
        · split at hp
          · exact absurd hp (List.not_mem_nil p)
          · obtain ⟨q, hq, rfl⟩ := List.mem_map.mp hp
            obtain ⟨hthr, hmem⟩ := rankDesc_mem hq
            exact ⟨hthr, clusterConfidences_le_one m env v cands _ hmem⟩
  · intro m hall
    unfold maxDistance
    rw [foldr_max_zero _ hall]
    norm_num
  · intro m hall c hc
    obtain ⟨d, hd, rfl⟩ := List.mem_map.mp hc
    rw [hall d hd]
    simp

/-- Trivial pretrained models for concrete evaluation: the identity scaler
and a single cluster. -/
def m0 : ClusterModels := { scaler := fun x => x, predict := fun _ => 0 }

/-- A one-candidate catalog for the cluster-scorer evaluation. -/
def env6 : String → Option AudioFeatures :=
  fun t => if t = "c1" then some af0 else none

theorem euclid_af0 :
    euclid (extract_feature_vector af0) (extract_feature_vector af0) = 0 := by
  have hsum : (List.zipWith (fun a b => (a - b) ^ 2) (extract_feature_vector af0)
      (extract_feature_vector af0)).sum = 0 := by
    norm_num [extract_feature_vector, af0]
  unfold euclid
  rw [hsum, Real.sqrt_zero]

/-- Witness for C6: one candidate identical to the reference vector, identity
scaler, single cluster: its distance is 0, the guard sets the divisor to 1,
the candidate gets confidence exactly 1, and the theorem's bounds hold on
the returned pair. -/
theorem C6_witness :
    cluster_based_recommendations (some m0) env6 (extract_feature_vector af0) ["c1"] 1 =
      [("c1", (1 : ℝ))]
    ∧ ((1 : ℝ) / 5 < 1 ∧ (1 : ℝ) ≤ 1)
    ∧ maxDistance (clusterDistances m0 env6 (extract_feature_vector af0) ["c1"]) = 1 := by
  have h15 : (1 : ℝ) / 5 < 1 := by norm_num
  have hdists : clusterDistances m0 env6 (extract_feature_vector af0) ["c1"] = [0] := by
    rw [show clusterDistances m0 env6 (extract_feature_vector af0) ["c1"] =
      [euclid (extract_feature_vector af0) (extract_feature_vector af0)] from rfl, euclid_af0]
  have hconf : clusterConfidences m0 env6 (extract_feature_vector af0) ["c1"] = [1] := by
    unfold clusterConfidences
    rw [hdists]
    norm_num
  have heval : cluster_based_recommendations (some m0) env6 (extract_feature_vector af0)
      ["c1"] 1 = [("c1", (1 : ℝ))] := by
    have step1 : cluster_based_recommendations (some m0) env6 (extract_feature_vector af0)
        ["c1"] 1 =
        (rankDesc (clusterConfidences m0 env6 (extract_feature_vector af0) ["c1"]) 1
            (1 / 5)).map
          fun q => ((["c1"] : List String).getD q.2 "", q.1) := rfl
    rw [step1, hconf]
    have step2 : rankDesc [(1 : ℝ)] 1 (1 / 5) = [((1 : ℝ), 0)] := by
      unfold rankDesc
      have hsort : List.insertionSort lexLe (withIdx [(1 : ℝ)] 0) = [((1 : ℝ), 0)] := by
        show List.insertionSort lexLe [((1 : ℝ), 0)] = [((1 : ℝ), 0)]
        simp only [List.insertionSort, List.orderedInsert]
      rw [hsort]
      have htk : (([((1 : ℝ), 0)].reverse).take 1) = [((1 : ℝ), 0)] := rfl
      rw [htk]
      simp only [filterThr, h15, if_true]
    rw [step2]
    rfl
  have h := C6_cluster_scorer_confidences (some m0) env6 (extract_feature_vector af0) ["c1"] 1
  refine ⟨heval, ?_, ?_⟩
  · have := h.1 ("c1", (1 : ℝ)) (by rw [heval]; exact List.mem_singleton.mpr rfl)
    exact this
  · exact h.2.2.1 m0 (by rw [hdists]; intro d hd; exact List.mem_singleton.mp hd)

theorem lookup0_dictInsertAdd (s t : String) (v : ℝ) :
    ∀ d : List (String × ℝ),
      lookup0 s (dictInsertAdd t v d) =
        if s = t then lookup0 s d + v else lookup0 s d
  | [] => by
    simp only [dictInsertAdd, lookup0]
    by_cases hst : s = t
    · subst hst
      rw [if_pos rfl, if_pos rfl]
      norm_num
    · rw [if_neg (fun h : t = s => hst h.symm), if_neg hst]
  | p :: ps => by
    unfold dictInsertAdd
    by_cases hpt : p.1 = t
    · by_cases hst : s = t
      · subst hst
        rw [if_pos hpt]
        simp [lookup0, hpt]
      · rw [if_pos hpt]
        have hps : ¬p.1 = s := fun h => hst (h ▸ hpt ▸ rfl)
        simp [lookup0, hps, hst]
    · rw [if_neg hpt]
      by_cases hps : p.1 = s
      · have hst : ¬s = t := fun h => hpt (h ▸ hps)
        simp [lookup0, hps, hst]
      · simp only [lookup0, hps, if_false, if_neg hps]
        rw [lookup0_dictInsertAdd s t v ps]

theorem lookup0_eq_zero {t : String} :
    ∀ {d : List (String × ℝ)}, t ∉ d.map Prod.fst → lookup0 t d = 0 := by
  intro d
  induction d with
  | nil => intro _; rfl
  | cons p ps ih =>
    intro h
    rw [List.map_cons, List.mem_cons] at h
    push_neg at h
    unfold lookup0
    rw [if_neg (fun he => h.1 he.symm)]
    exact ih h.2

theorem lookup0_foldl (c : ℝ) :
    ∀ (l d0 : List (String × ℝ)) (t : String), (l.map Prod.fst).Nodup →
      lookup0 t (l.foldl (fun d p => dictInsertAdd p.1 (p.2 * c) d) d0) =
        lookup0 t d0 + lookup0 t l * c
  | [], d0, t, _ => by simp [lookup0]
  | p :: ps, d0, t, hnd => by
    rw [List.foldl_cons]
    have hnd2 : (ps.map Prod.fst).Nodup := (List.nodup_cons.mp (by simpa using hnd)).2
    have hpn : p.1 ∉ ps.map Prod.fst := (List.nodup_cons.mp (by simpa using hnd)).1
    rw [lookup0_foldl c ps _ t hnd2, lookup0_dictInsertAdd]
    by_cases ht : t = p.1
    · subst ht
      rw [if_pos rfl, lookup0_eq_zero hpn]
      have hcons : lookup0 p.1 (p :: ps) = p.2 := by
        simp [lookup0]
      rw [hcons]
      ring
    · rw [if_neg ht]
      have hcons : lookup0 t (p :: ps) = lookup0 t ps := by
        simp only [lookup0]
        rw [if_neg (fun he => ht he.symm)]
      rw [hcons]

theorem keys_dictInsertAdd (t : String) (v : ℝ) :
    ∀ d : List (String × ℝ),
      (dictInsertAdd t v d).map Prod.fst =
        if t ∈ d.map Prod.fst then d.map Prod.fst else d.map Prod.fst ++ [t]
  | [] => by simp [dictInsertAdd]
  | p :: ps => by
    unfold dictInsertAdd
    by_cases hpt : p.1 = t
    · rw [if_pos hpt]
      have : t ∈ (p :: ps).map Prod.fst := by
        rw [List.map_cons, hpt]
        exact List.mem_cons_self _ _
      rw [if_pos this]
      simp
    · rw [if_neg hpt]
      rw [List.map_cons, List.map_cons, keys_dictInsertAdd t v ps]
      by_cases hmem : t ∈ ps.map Prod.fst
      · rw [if_pos hmem, if_pos (List.mem_cons_of_mem _ hmem)]
      · rw [if_neg hmem,
          if_neg (fun h => by
            rcases List.mem_cons.mp h with h | h
            · exact hpt (h.symm)
            · exact hmem h)]
        simp

theorem keys_nodup_dictInsertAdd {t : String} {v : ℝ} {d : List (String × ℝ)}
    (hnd : (d.map Prod.fst).Nodup) : ((dictInsertAdd t v d).map Prod.fst).Nodup := by
  rw [keys_dictInsertAdd]
  split_ifs with h
  · exact hnd
  · rw [List.nodup_append]
    exact ⟨hnd, List.nodup_singleton t,
      fun a ha hat => h ((List.mem_singleton.mp hat) ▸ ha)⟩

theorem keys_nodup_foldl (c : ℝ) :
    ∀ (l d0 : List (String × ℝ)), ((d0.map Prod.fst).Nodup) →
      (((l.foldl (fun d p => dictInsertAdd p.1 (p.2 * c) d) d0)).map Prod.fst).Nodup
  | [], _, h => h
  | p :: ps, d0, h => by
    rw [List.foldl_cons]
    exact keys_nodup_foldl c ps _ (keys_nodup_dictInsertAdd h)

theorem hybridDict_keys_nodup (sims clus : List (String × ℝ)) :
    ((hybridDict sims clus).map Prod.fst).Nodup := by
  unfold hybridDict
  exact keys_nodup_foldl _ _ _ (keys_nodup_foldl _ _ _ (by simp))

theorem lookup0_of_mem :
    ∀ {d : List (String × ℝ)}, (d.map Prod.fst).Nodup →
      ∀ {p : String × ℝ}, p ∈ d → lookup0 p.1 d = p.2 := by
  intro d
  induction d with
  | nil => intro _ p hp; cases hp
  | cons q qs ih =>
    intro hnd p hp
    have hq : q.1 ∉ qs.map Prod.fst := (List.nodup_cons.mp (by simpa using hnd)).1
    have hnd2 : (qs.map Prod.fst).Nodup := (List.nodup_cons.mp (by simpa using hnd)).2
    cases hp with
    | head => unfold lookup0; rw [if_pos rfl]
    | tail _ hp =>
      have hne : ¬q.1 = p.1 := fun he => hq (he ▸ List.mem_map_of_mem Prod.fst hp)
      unfold lookup0
      rw [if_neg hne]
      exact ih hnd2 hp

theorem mem_hybridBlend {sims clus : List (String × ℝ)} {n : ℕ} {p : String × ℝ}
    (hp : p ∈ hybridBlend sims clus n) : p ∈ hybridDict sims clus := by
  unfold hybridBlend at hp
  have hp2 := List.take_subset n _ hp
  obtain ⟨q, hq, rfl⟩ := List.mem_map.mp hp2
  have hq2 : q ∈ withIdx (hybridDict sims clus) 0 :=
    (List.perm_insertionSort hybLe _).mem_iff.mp hq
  exact mem_withIdx hq2

/-- C7: the Hybrid Blender.  (i) In the combined dict, every track id's score
is `0.6 × its similarity score + 0.4 × its cluster score`, each lookup
defaulting to 0 when the id is absent from that sub-scorer's output.
(ii) The same formula holds for every pair the blender returns.  (iii) The
blender returns at most `top_n` entries, (iv) sorted by descending combined
score.  (v) `_hybrid_recommendations` invokes each sub-scorer requesting
`2 × top_n` candidates and blends their outputs down to `top_n`. -/
theorem C7_hybrid_blend (sims clus : List (String × ℝ)) (n : ℕ)
    (hs : (sims.map Prod.fst).Nodup) (hc : (clus.map Prod.fst).Nodup) :
    (∀ t, lookup0 t (hybridDict sims clus) =
        lookup0 t sims * (3 / 5) + lookup0 t clus * (2 / 5))
    ∧ (∀ p ∈ hybridBlend sims clus n,
        p.2 = lookup0 p.1 sims * (3 / 5) + lookup0 p.1 clus * (2 / 5))
    ∧ (hybridBlend sims clus n).length ≤ n
    ∧ (hybridBlend sims clus n).Pairwise (fun a b => b.2 ≤ a.2)
    ∧ (∀ (simScorer : List String → ℕ → Except String (List (String × ℝ)))
        (cluScorer : List String → ℕ → List (String × ℝ))
        (cands : List String) (simOut : List (String × ℝ)),
        simScorer cands (n * 2) = Except.ok simOut →
        run_hybrid simScorer cluScorer cands n =
          Except.ok (hybridBlend simOut (cluScorer cands (n * 2)) n)) := by
  have hdict : ∀ t, lookup0 t (hybridDict sims clus) =
      lookup0 t sims * (3 / 5) + lookup0 t clus * (2 / 5) := by
    intro t
    unfold hybridDict
    rw [lookup0_foldl (2 / 5) clus _ t hc, lookup0_foldl (3 / 5) sims [] t hs]
    simp [lookup0]
  refine ⟨hdict, ?_, ?_, ?_, ?_⟩
  · intro p hp
    have hmem := mem_hybridBlend hp
    have := lookup0_of_mem (hybridDict_keys_nodup sims clus) hmem
    rw [← this, hdict]
  · exact le_trans (List.length_take_le _ _) le_rfl
  · have hsorted : (List.insertionSort hybLe (withIdx (hybridDict sims clus) 0)).Pairwise
        hybLe := List.sorted_insertionSort hybLe _
    have hmapped : ((List.insertionSort hybLe
        (withIdx (hybridDict sims clus) 0)).map Prod.fst).Pairwise
        (fun a b : String × ℝ => b.2 ≤ a.2) := by
      refine hsorted.map _ ?_
      intro a b hab
      rcases hab with h | ⟨h, _⟩
      · exact le_of_lt h
      · exact le_of_eq h.symm
    exact hmapped.sublist (List.take_sublist n _)
  · intro simScorer cluScorer cands simOut h
    unfold run_hybrid
    rw [h]
    rfl

/-- Witness for C7: concrete sub-scorer outputs with one track each.  The
track present only in the similarity output gets combined score
`1 × 0.6 + 0 × 0.4 = 0.6`, and the blend length is bounded. -/
theorem C7_witness :
    lookup0 "a" (hybridDict [("a", (1 : ℝ))] [("b", (1 : ℝ))]) = 3 / 5
    ∧ (hybridBlend [("a", (1 : ℝ))] [("b", (1 : ℝ))] 3).length ≤ 3 := by
  have h := C7_hybrid_blend [("a", (1 : ℝ))] [("b", (1 : ℝ))] 3 (by simp) (by simp)
  constructor
  · rw [h.1 "a"]
    have ha : lookup0 "a" [("a", (1 : ℝ))] = 1 := by
      unfold lookup0
      rw [if_pos rfl]
    have hb : lookup0 "a" [("b", (1 : ℝ))] = 0 := by
      unfold lookup0
      rw [if_neg (by decide)]
      rfl
    rw [ha, hb]
    norm_num
  · exact h.2.2.1

end SongRec
